import Mathlib

/-!
Shallow embedding of the Blue-Carbon-MRV prototype (src/app.py and
src/app1.py) and proofs about its validator / credit-estimator /
hash / record-store pipeline.

Conventions of the embedding:
* Python floats are modelled as exact rationals (ℚ); numpy / pandas
  statistics become exact rational formulas.
* `numpy.var` (ddof=0) is the population variance; `pandas.Series.std`
  (default ddof=1) is the sample standard deviation.  The z-score test
  `|z| > 3` with `z = (v - mean)/std` is encoded in squared form
  `(v - mean)^2 > 9 * sampleVar` when `std > 0` (equivalent, and avoids
  square roots), and `|v - mean| > 3` when `std = 0` (the code divides
  by 1 in that case).
* Python `int(x)` truncates toward zero (`pyInt`); `round(x, 2)` rounds
  to a multiple of 1/100 with ties to even (`pyRound2`).
* Human-readable reason strings are modelled by the inductive `Reason`,
  carrying exactly the data the code interpolates into each message.
* SHA-256 is implemented executably over `Nat` with explicit `% 2^32`.
-/

namespace BlueCarbon

/-- Python `int(x)`: truncation toward zero. -/
def pyInt (q : ℚ) : ℤ := if q < 0 then ⌈q⌉ else ⌊q⌋

/-- Round half to even at integer precision (Python `round(y)`). -/
def roundHalfEven (q : ℚ) : ℤ :=
  let f : ℤ := ⌊q⌋
  let r : ℚ := q - f
  if r < 1/2 then f
  else if 1/2 < r then f + 1
  else if Even f then f else f + 1

/-- Python `round(x, 2)`: round to a multiple of 1/100, ties to even. -/
def pyRound2 (q : ℚ) : ℚ := (roundHalfEven (q * 100) : ℚ) / 100

/-- Arithmetic mean of a list of rationals (0 on the empty list,
matching Lean's `0/0 = 0`; the code never takes a mean of an empty
series on the paths we verify). -/
def listMean (l : List ℚ) : ℚ := l.sum / l.length

/-- Population variance (`numpy.var`, ddof=0). -/
def popVar (l : List ℚ) : ℚ :=
  (l.map (fun v => (v - listMean l) ^ 2)).sum / l.length

/-- Sum of squared deviations about the mean. -/
def ssDev (l : List ℚ) : ℚ :=
  (l.map (fun v => (v - listMean l) ^ 2)).sum

/-- Sample variance (`pandas.Series.std` squared, ddof=1). -/
def sampleVar (l : List ℚ) : ℚ := ssDev l / (l.length - 1 : ℚ)

/-- The decoded single-channel (luminance) image `numpy` array:
`img.size` is `(width, height)` and `pixels` lists the luminance
values of `np.array(img.convert("L"))`. -/
structure Img where
  width : ℕ
  height : ℕ
  pixels : List ℚ
deriving DecidableEq, Repr

/-- Luminance variance `float(arr.var())` of the decoded image. -/
def Img.var (img : Img) : ℚ := popVar img.pixels

/-- The data carried by each human-readable verdict/reason string the
two MRV checks produce (`app.py` lines 50-80).  Each constructor
corresponds to one `return` statement and carries the values the code
interpolates into the message. -/
inductive Reason where
  | lowVariance (variance : ℚ)
  | tooSmall (w h : ℕ)
  | imageOk (variance : ℚ)
  | missingValueColumn
  | notEnoughReadings
  | anomaliesDetected (count : ℕ)
  | flatline
  | iotOk (mean sampleVariance : ℚ) (anomalies : ℕ)
deriving DecidableEq, Repr

/-- `anomaly_detection_image` (src/app.py lines 50-61): grayscale
variance below 50 fails, then a pixel count below 10,000 fails,
otherwise the image passes. -/
def anomaly_detection_image (img : Img) : Bool × Reason :=
  if img.var < 50 then (false, .lowVariance img.var)
  else if img.width * img.height < 10000 then (false, .tooSmall img.width img.height)
  else (true, .imageOk img.var)

/-- Timestamp column of an uploaded CSV: absent, present but failing
`pd.to_datetime`, or parsed to timestamps in seconds. -/
inductive TsCol where
  | absent
  | unparseable
  | parsed (seconds : List ℚ)
deriving DecidableEq, Repr

/-- An uploaded IoT CSV (`pd.DataFrame`): the optional `value` column
(entries `none` are missing/NaN cells) and the optional `timestamp`
column. -/
structure IotDf where
  valueCol : Option (List (Option ℚ))
  tsCol : TsCol
deriving DecidableEq, Repr

/-- `df['value'].dropna()`: the non-missing readings. -/
def IotDf.vals (df : IotDf) : List ℚ := (df.valueCol.getD []).filterMap id

/-- Whether a reading is counted by `(abs(zscores) > 3)`: the code
divides by `std if std>0 else 1`, so with `std > 0` the test
`|v - mean|/std > 3` is equivalently `(v - mean)^2 > 9·sampleVar`,
and with `std = 0` it is `|v - mean| > 3`. -/
def isAnomaly (mean svar v : ℚ) : Bool :=
  if 0 < svar then decide ((v - mean) ^ 2 > 9 * svar)
  else decide (|v - mean| > 3)

/-- `(abs(zscores) > 3).sum()` for a series of readings. -/
def anomalyCount (l : List ℚ) : ℕ :=
  (l.filter (isAnomaly (listMean l) (sampleVar l))).length

/-- `vals.nunique()`: number of distinct non-missing readings. -/
def nunique (l : List ℚ) : ℕ := l.dedup.length

/-- The checks of `anomaly_detection_iot` that run once the `value`
column exists, as a function of the dropna'd readings (src/app.py
lines 67-80): at least 3 readings; the count of readings with
`|z| > 3` must not exceed `max(1, n // 10)`; more than 2 distinct
values; otherwise pass. -/
def iotVerdict (vals : List ℚ) : Bool × Reason :=
  if vals.length < 3 then (false, .notEnoughReadings)
  else if anomalyCount vals > max 1 (vals.length / 10) then
    (false, .anomaliesDetected (anomalyCount vals))
  else if nunique vals ≤ 2 then (false, .flatline)
  else (true, .iotOk (listMean vals) (sampleVar vals) (anomalyCount vals))

/-- `anomaly_detection_iot` (src/app.py lines 63-80): fail when the
`value` column is missing, otherwise run the statistical checks on
`df['value'].dropna()`. -/
def anomaly_detection_iot (df : IotDf) : Bool × Reason :=
  match df.valueCol with
  | none => (false, .missingValueColumn)
  | some _ => iotVerdict df.vals

/-- `calculate_credits_image` (src/app.py lines 83-88):
`max(1, int((w*h/200000.0) * 10))`. -/
def calculate_credits_image (img : Img) : ℤ :=
  max 1 (pyInt ((img.width * img.height : ℚ) / 200000 * 10))

/-- `max(l)` of a list (0 on empty; the code only reaches this with a
nonempty parsed timestamp column). -/
def listMax (l : List ℚ) : ℚ := l.foldl max 0
/-- `min(l)` of a list, with the same convention as `listMax`. -/
def listMin (l : List ℚ) : ℚ := l.foldl min 0

/-- `calculate_credits_iot` (src/app.py lines 90-103): duration in
hours from the timestamp span, `max`-ed with 1.0 (and 1.0 on an
absent or unparseable column); credits
`max(1, int(mean(value) * duration_hours / 10))`.  `df['value'].mean()`
skips missing cells, so it equals the mean of the dropna'd readings. -/
def calculate_credits_iot (df : IotDf) : ℤ :=
  let duration_hours : ℚ :=
    match df.tsCol with
    | .parsed secs => max ((listMax secs - listMin secs) / 3600) 1
    | .unparseable => 1
    | .absent => 1
  max 1 (pyInt (listMean df.vals * duration_hours / 10))

/-- The tabular credit formula exactly as claim C2 words it (for
comparison with `calculate_credits_iot`): duration is the timestamp
span in hours when the column is present and parseable, floored at 1.0
ONLY on parse failure or when the computed duration is ≤ 0, and 1.0
when the column is absent; `credits = max(1, floor(mean * duration / 10))`. -/
def calculate_credits_iot_claim (df : IotDf) : ℤ :=
  let duration_hours : ℚ :=
    match df.tsCol with
    | .parsed secs =>
      let d := (listMax secs - listMin secs) / 3600
      if d ≤ 0 then 1 else d
    | .unparseable => 1
    | .absent => 1
  max 1 ⌊listMean df.vals * duration_hours / 10⌋

/-- The tabular credit formula as amended to match the code: the
duration is floored at 1.0 whenever the computed span is *less than*
1.0 hour (not only when ≤ 0), and is 1.0 on an absent or unparseable
timestamp column. -/
def calculate_credits_iot_amended (df : IotDf) : ℤ :=
  let duration_hours : ℚ :=
    match df.tsCol with
    | .parsed secs => max ((listMax secs - listMin secs) / 3600) 1
    | .unparseable => 1
    | .absent => 1
  max 1 ⌊listMean df.vals * duration_hours / 10⌋

/-! ### SHA-256 (`hashlib.sha256(...).hexdigest()`), executable over `Nat` -/

namespace Sha256

/-- 2^32, the word modulus. -/
def w32 : ℕ := 2 ^ 32

/-- Right rotation of a 32-bit word (input assumed `< 2^32`). -/
def rotr (k n : ℕ) : ℕ := n / 2 ^ k + n % 2 ^ k * 2 ^ (32 - k)

/-- Bitwise complement of a 32-bit word. -/
def not32 (n : ℕ) : ℕ := n ^^^ (w32 - 1)

def smallSigma0 (x : ℕ) : ℕ := rotr 7 x ^^^ rotr 18 x ^^^ x >>> 3
def smallSigma1 (x : ℕ) : ℕ := rotr 17 x ^^^ rotr 19 x ^^^ x >>> 10
def bigSigma0 (x : ℕ) : ℕ := rotr 2 x ^^^ rotr 13 x ^^^ rotr 22 x
def bigSigma1 (x : ℕ) : ℕ := rotr 6 x ^^^ rotr 11 x ^^^ rotr 25 x

/-- The 64 SHA-256 round constants (FIPS 180-2 §4.2.2, written in
decimal). -/
def K : List ℕ :=
  [1116352408, 1899447441, 3049323471, 3921009573, 961987163,
   1508970993, 2453635748, 2870763221, 3624381080, 310598401,
   607225278, 1426881987, 1925078388, 2162078206, 2614888103,
   3248222580, 3835390401, 4022224774, 264347078, 604807628,
   770255983, 1249150122, 1555081692, 1996064986, 2554220882,
   2821834349, 2952996808, 3210313671, 3336571891, 3584528711,
   113926993, 338241895, 666307205, 773529912, 1294757372,
   1396182291, 1695183700, 1986661051, 2177026350, 2456956037,
   2730485921, 2820302411, 3259730800, 3345764771, 3516065817,
   3600352804, 4094571909, 275423344, 430227734, 506948616,
   659060556, 883997877, 958139571, 1322822218, 1537002063,
   1747873779, 1955562222, 2024104815, 2227730452, 2361852424,
   2428436474, 2756734187, 3204031479, 3329325298]

/-- Hash state: the eight 32-bit working variables. -/
structure Hs where
  a : ℕ
  b : ℕ
  c : ℕ
  d : ℕ
  e : ℕ
  f : ℕ
  g : ℕ
  h : ℕ
deriving DecidableEq, Repr

/-- Initial hash value (FIPS 180-2 §5.3.2, written in decimal). -/
def initH : Hs :=
  ⟨1779033703, 3144134277, 1013904242, 2773480762,
   1359893119, 2600822924, 528734635, 1541459225⟩

/-- One compression round. -/
def step (k w : ℕ) (s : Hs) : Hs :=
  let ch := (s.e &&& s.f) ^^^ (not32 s.e &&& s.g)
  let maj := (s.a &&& s.b) ^^^ (s.a &&& s.c) ^^^ (s.b &&& s.c)
  let t1 := (s.h + bigSigma1 s.e + ch + k + w) % w32
  let t2 := (bigSigma0 s.a + maj) % w32
  ⟨(t1 + t2) % w32, s.a, s.b, s.c, (s.d + t1) % w32, s.e, s.f, s.g⟩

/-- The 16 big-endian words of a 64-byte block. -/
def blockWords (block : List ℕ) : List ℕ :=
  (List.range 16).map (fun i =>
    block.getD (4 * i) 0 * 2 ^ 24 + block.getD (4 * i + 1) 0 * 2 ^ 16 +
    block.getD (4 * i + 2) 0 * 2 ^ 8 + block.getD (4 * i + 3) 0)

/-- Extend 16 words to the 64-word message schedule. -/
def schedule (ws : List ℕ) : List ℕ :=
  (List.range 48).foldl (fun acc _ =>
    let n := acc.length
    acc ++ [(smallSigma1 (acc.getD (n - 2) 0) + acc.getD (n - 7) 0 +
             smallSigma0 (acc.getD (n - 15) 0) + acc.getD (n - 16) 0) % w32]) ws

/-- Compress one 64-byte block into the state. -/
def compress (s0 : Hs) (block : List ℕ) : Hs :=
  let ws := schedule (blockWords block)
  let s := (List.range 64).foldl (fun s i => step (K.getD i 0) (ws.getD i 0) s) s0
  ⟨(s0.a + s.a) % w32, (s0.b + s.b) % w32, (s0.c + s.c) % w32, (s0.d + s.d) % w32,
   (s0.e + s.e) % w32, (s0.f + s.f) % w32, (s0.g + s.g) % w32, (s0.h + s.h) % w32⟩

/-- Big-endian byte expansion of `n` into `k` bytes. -/
def beBytes (k n : ℕ) : List ℕ :=
  (List.range k).map (fun i => n / 2 ^ (8 * (k - 1 - i)) % 256)

/-- SHA-256 padding: `0x80`, zeros to 56 mod 64, 8-byte bit length. -/
def padBytes (msg : List ℕ) : List ℕ :=
  let len := msg.length
  let zeros := (120 - (len + 1) % 64) % 64
  msg ++ 0x80 :: List.replicate zeros 0 ++ beBytes 8 (8 * len)

/-- Split a byte string into 64-byte blocks; structural recursion on a
fuel bound (any fuel `≥ ⌈|l|/64⌉` chunks the whole list). -/
def toBlocksFuel : ℕ → List ℕ → List (List ℕ)
  | 0, _ => []
  | _, [] => []
  | fuel + 1, l => l.take 64 :: toBlocksFuel fuel (l.drop 64)

/-- Split a byte string into 64-byte blocks. -/
def toBlocks (l : List ℕ) : List (List ℕ) := toBlocksFuel (l.length / 64 + 1) l

/-- The hash state after absorbing a whole byte message. -/
def sha256Words (msg : List ℕ) : Hs :=
  (toBlocks (padBytes msg)).foldl compress initH

/-- UTF-8 encoding of one character (Python `str.encode()`). -/
def utf8Char (c : Char) : List ℕ :=
  let n := c.toNat
  if n < 0x80 then [n]
  else if n < 0x800 then [0xC0 + n / 64, 0x80 + n % 64]
  else if n < 0x10000 then [0xE0 + n / 4096, 0x80 + n / 64 % 64, 0x80 + n % 64]
  else [0xF0 + n / 262144, 0x80 + n / 4096 % 64, 0x80 + n / 64 % 64, 0x80 + n % 64]

/-- UTF-8 encoding of a string. -/
def utf8Encode (s : String) : List ℕ := (s.data.map utf8Char).flatten

/-- The sixteen lower-case hexadecimal digits. -/
def hexChars : List Char := (List.range 16).map Nat.digitChar

/-- The hex digit of `n % 16` (`Nat.digitChar` is lower-case). -/
def nib (n : ℕ) : Char := Nat.digitChar (n % 16)

/-- Eight hex digits of a 32-bit word, most significant first. -/
def wordHex (w : ℕ) : List Char :=
  [nib (w / 16 ^ 7), nib (w / 16 ^ 6), nib (w / 16 ^ 5), nib (w / 16 ^ 4),
   nib (w / 16 ^ 3), nib (w / 16 ^ 2), nib (w / 16), nib w]

/-- The 64 hex digits of a final hash state. -/
def hsChars (s : Hs) : List Char :=
  wordHex s.a ++ wordHex s.b ++ wordHex s.c ++ wordHex s.d ++
  wordHex s.e ++ wordHex s.f ++ wordHex s.g ++ wordHex s.h

/-- `hexdigest()` of a final hash state. -/
def hsHex (s : Hs) : String := ⟨hsChars s⟩

end Sha256

/-- `hashlib.sha256(s.encode("utf-8")).hexdigest()` for a string `s`
(Python's default `encode()` codec is also UTF-8). -/
def sha256HexUtf8 (s : String) : String :=
  Sha256.hsHex (Sha256.sha256Words (Sha256.utf8Encode s))

/-- `simulate_tx_hash` (src/app1.py lines 65-66):
`hashlib.sha256(seed.encode("utf-8")).hexdigest()`. -/
def simulate_tx_hash (seed : String) : String := sha256HexUtf8 seed

/-- `simulate_tx_hash` (src/app.py lines 106-108): hashes the payload
`f"{record_uuid}|{time.time()}"`; `now` models the `time.time()`
rendering supplied by the clock collaborator. -/
def simulate_tx_hash_reg (record_uuid now : String) : String :=
  sha256HexUtf8 (record_uuid ++ "|" ++ now)

/-! ### src/app.py: registry rows, upload handler, issue handler -/

/-- A row of the `registry` table (src/app.py lines 19-31).  `id` is the
autoincrement key assigned by the store; `mrv_msg` is the validator's
reason string, modelled by `Reason`. -/
structure RegRow where
  id : ℕ
  record_uuid : String
  created_at : String
  project_name : String
  data_type : String
  credits : ℤ
  mrv_status : String
  mrv_msg : Reason
  tx_hash : Option String
deriving DecidableEq, Repr

/-- `save_record` (src/app.py lines 35-44): builds the inserted row.
`id` models the autoincrement key, `ruuid` the generated `uuid4()`,
`created_at` the `utcnow()` timestamp (all supplied by collaborators);
the Python parameter `tx_hash` defaults to `None`. -/
def save_record (id : ℕ) (ruuid created_at project_name data_type : String)
    (credits : ℤ) (mrv_status : String) (mrv_msg : Reason)
    (tx_hash : Option String) : RegRow :=
  { id := id, record_uuid := ruuid, created_at := created_at,
    project_name := project_name, data_type := data_type, credits := credits,
    mrv_status := mrv_status, mrv_msg := mrv_msg, tx_hash := tx_hash }

/-- The CSV branch of the `run_btn` handler (src/app.py lines 141-161):
validate, then on pass estimate credits and persist a `verified` row
with no tx hash, on fail persist a `rejected` row with 0 credits and
the failure reason as the message.  The second component records
whether `calculate_credits_iot` was invoked. -/
def runBtnIot (id : ℕ) (ruuid created_at project_name : String)
    (df : IotDf) : RegRow × Bool :=
  let v := anomaly_detection_iot df
  if v.1 then
    (save_record id ruuid created_at project_name "iot_csv"
      (calculate_credits_iot df) "verified" v.2 none, true)
  else
    (save_record id ruuid created_at project_name "iot_csv"
      0 "rejected" v.2 none, false)

/-- The image branch of the `run_btn` handler (src/app.py lines
162-180), analogous to the CSV branch. -/
def runBtnImage (id : ℕ) (ruuid created_at project_name : String)
    (img : Img) : RegRow × Bool :=
  let v := anomaly_detection_image img
  if v.1 then
    (save_record id ruuid created_at project_name "image"
      (calculate_credits_image img) "verified" v.2 none, true)
  else
    (save_record id ruuid created_at project_name "image"
      0 "rejected" v.2 none, false)

/-- `mrv_status='verified' AND (tx_hash IS NULL OR tx_hash='')`. -/
def unissuedVerified (r : RegRow) : Bool :=
  r.mrv_status == "verified" && (r.tx_hash == none || r.tx_hash == some "")

/-- Outcome shown by the issue handler: the informational
"No verified unissued record found." message, or a success with the
issued hash. -/
inductive IssueOutcome where
  | info
  | issued (tx : String)
deriving DecidableEq, Repr

/-- `UPDATE registry SET tx_hash=? WHERE id=?` applied to one row. -/
def setTx (i : ℕ) (tx : String) (r : RegRow) : RegRow :=
  if r.id = i then { r with tx_hash := some tx } else r

/-- The issue-button handler (src/app.py lines 190-201): select the
unissued verified row with the greatest id (`ORDER BY id DESC LIMIT 1`);
if none exists, report info and leave the store unchanged; otherwise
set that row's tx hash to `simulate_tx_hash(record_uuid)`. -/
def issueButton (now : String) (store : List RegRow) :
    List RegRow × IssueOutcome :=
  match (store.filter unissuedVerified).argmax RegRow.id with
  | none => (store, .info)
  | some r =>
    let tx := simulate_tx_hash_reg r.record_uuid now
    (store.map (setTx r.id tx), .issued tx)

/-! ### src/app1.py: projects, credits, complaints -/

/-- A row of the `projects` table (src/app1.py lines 28-38). -/
structure ProjectRow where
  uuid : String
  name : String
  location : String
  description : String
  created_at : String
  tx_hash : Option String
deriving DecidableEq, Repr

/-- `add_project` (src/app1.py lines 68-78): the inserted row.  `uid`
models the generated `uuid4()` and `created_at` the `utcnow()`
timestamp; the tx hash is computed at creation from `uid + created_at`. -/
def add_project (uid created_at name location description : String) :
    ProjectRow :=
  { uuid := uid, name := name, location := location,
    description := description, created_at := created_at,
    tx_hash := some (simulate_tx_hash (uid ++ created_at)) }

/-- A row of the `credits` table (src/app1.py lines 39-51). -/
structure CreditsRow where
  uuid : String
  project_id : ℕ
  data_type : String
  credits : ℚ
  status : String
  notes : String
  timestamp : String
  tx_hash : Option String
deriving DecidableEq, Repr

/-- `add_credit` (src/app1.py lines 87-97): the inserted row.
`creditsRepr` models Python's `str(credits)` (float formatting, an
external collaborator); the tx hash is computed at creation from
`uid + str(credits) + ts`. -/
def add_credit (uid ts creditsRepr : String) (project_id : ℕ)
    (data_type : String) (credits : ℚ) (status notes : String) :
    CreditsRow :=
  { uuid := uid, project_id := project_id, data_type := data_type,
    credits := credits, status := status, notes := notes, timestamp := ts,
    tx_hash := some (simulate_tx_hash (uid ++ creditsRepr ++ ts)) }

/-- A row of the `complaints` table (src/app1.py lines 52-62). -/
structure ComplaintRow where
  uuid : String
  project_id : ℕ
  complaint : String
  status : String
  created_at : String
  tx_hash : Option String
deriving DecidableEq, Repr

/-- `add_complaint` (src/app1.py lines 99-109): the inserted row, with
status `pending` and a tx hash computed at creation from
`uid + complaint + ts`. -/
def add_complaint (uid ts : String) (project_id : ℕ)
    (complaint : String) : ComplaintRow :=
  { uuid := uid, project_id := project_id, complaint := complaint,
    status := "pending", created_at := ts,
    tx_hash := some (simulate_tx_hash (uid ++ complaint ++ ts)) }

/-- `calculate_carbon_credits` (src/app1.py lines 80-85): on the
decoded luminance image, credits are `round(variance / 100.0, 2)`;
returns `(credits, variance)`. -/
def calculate_carbon_credits (img : Img) : ℚ × ℚ :=
  (pyRound2 (img.var / 100), img.var)

/-- The "Upload Data & Verify" branch of `run_streamlit_app`
(src/app1.py lines 153-161): every decoded upload is estimated with
`calculate_carbon_credits` and persisted via `add_credit` with status
`verified` and note `f"variance={variance:.2f}"`; no validator is
invoked on this path.  `varRepr` models the `:.2f` formatting of the
variance. -/
def uploadDataAndVerify (uid ts creditsRepr varRepr : String)
    (project_id : ℕ) (img : Img) : CreditsRow :=
  let cv := calculate_carbon_credits img
  add_credit uid ts creditsRepr project_id "image" cv.1 "verified"
    ("variance=" ++ varRepr)

/-! ## Helper lemmas -/

attribute [local semireducible] Rat.add Rat.sub Rat.mul Rat.inv

/-- Under `max 1 _`, Python truncation agrees with mathematical floor
(they differ only on negative non-integers, where both are below 1). -/
theorem max_one_pyInt (q : ℚ) : max 1 (pyInt q) = max 1 ⌊q⌋ := by
  unfold pyInt
  split_ifs with h
  · have hq : q ≤ 0 := le_of_lt h
    have h1 : (⌈q⌉ : ℤ) ≤ 0 := Int.ceil_le.2 (by exact_mod_cast hq)
    have h2 : (⌊q⌋ : ℤ) ≤ 0 := Int.floor_nonpos hq
    rw [max_eq_left (by omega), max_eq_left (by omega)]
  · rfl

/-- The image validator passes exactly on variance ≥ 50 and pixel
count ≥ 10,000. -/
theorem image_pass_iff (img : Img) :
    (anomaly_detection_image img).1 = true ↔
      50 ≤ img.var ∧ 10000 ≤ img.width * img.height := by
  unfold anomaly_detection_image
  split_ifs with h1 h2
  · exact iff_of_false not_false (by rintro ⟨ha, _⟩; linarith)
  · exact iff_of_false not_false (by rintro ⟨_, hb⟩; omega)
  · exact iff_of_true rfl ⟨not_lt.1 h1, by omega⟩

/-! ## Claims -/

/-- **C1**: for every decoded image, the validator passes iff the
luminance variance is ≥ 50 and the pixel count is ≥ 10,000; variance
below 50 fails with the low-variance reason; otherwise a pixel count
below 10,000 fails with the too-small reason; and at fixed size the
pass verdict is monotone in variance. -/
theorem c1_image_validator (img : Img) :
    ((anomaly_detection_image img).1 = true ↔
      50 ≤ img.var ∧ 10000 ≤ img.width * img.height)
    ∧ (img.var < 50 →
        anomaly_detection_image img = (false, .lowVariance img.var))
    ∧ (50 ≤ img.var → img.width * img.height < 10000 →
        anomaly_detection_image img = (false, .tooSmall img.width img.height))
    ∧ (∀ img2 : Img, img2.width = img.width → img2.height = img.height →
        img.var ≤ img2.var → (anomaly_detection_image img).1 = true →
        (anomaly_detection_image img2).1 = true) := by
  refine ⟨image_pass_iff img, ?_, ?_, ?_⟩
  · intro h
    unfold anomaly_detection_image
    rw [if_pos h]
  · intro hv hs
    unfold anomaly_detection_image
    rw [if_neg (not_lt.2 hv), if_pos hs]
  · intro img2 hw hh hv hp
    rw [image_pass_iff] at hp ⊢
    obtain ⟨ha, hb⟩ := hp
    exact ⟨le_trans ha hv, by rw [hw, hh]; exact hb⟩

/-- Witness for C1: a 100×100 image of variance 2500 passes; a uniform
image fails with the low-variance reason; a 50×50 image of variance
2500 fails with the too-small reason; raising variance at fixed size
preserves the pass. -/
theorem c1_image_validator_witness :
    (anomaly_detection_image ⟨100, 100, [0, 100]⟩).1 = true
    ∧ anomaly_detection_image ⟨100, 100, [0, 0, 0, 0]⟩ =
        (false, .lowVariance (Img.var ⟨100, 100, [0, 0, 0, 0]⟩))
    ∧ anomaly_detection_image ⟨50, 50, [0, 100]⟩ = (false, .tooSmall 50 50)
    ∧ (anomaly_detection_image ⟨100, 100, [0, 200]⟩).1 = true := by
  refine ⟨?_, ?_, ?_, ?_⟩
  · exact (c1_image_validator ⟨100, 100, [0, 100]⟩).1.2 ⟨by decide, by decide⟩
  · exact (c1_image_validator ⟨100, 100, [0, 0, 0, 0]⟩).2.1 (by decide)
  · exact (c1_image_validator ⟨50, 50, [0, 100]⟩).2.2.1 (by decide) (by decide)
  · exact (c1_image_validator ⟨100, 100, [0, 100]⟩).2.2.2
      ⟨100, 100, [0, 200]⟩ rfl rfl (by decide)
      ((c1_image_validator ⟨100, 100, [0, 100]⟩).1.2 ⟨by decide, by decide⟩)

/-- With the `value` column present the tabular validator is the
verdict on the dropna'd readings. -/
theorem anomaly_detection_iot_some (raw : List (Option ℚ)) (ts : TsCol) :
    anomaly_detection_iot ⟨some raw, ts⟩ = iotVerdict (raw.filterMap id) := rfl

/-- Appending readings cannot decrease the number of distinct values. -/
theorem nunique_le_append (l l2 : List ℚ) : nunique l ≤ nunique (l ++ l2) := by
  unfold nunique
  rw [← List.card_toFinset, ← List.card_toFinset]
  refine Finset.card_le_card ?_
  intro a ha
  rw [List.mem_toFinset] at ha ⊢
  exact List.mem_append_left _ ha

/-- Facts recovered from a passing tabular verdict. -/
theorem iotVerdict_pass_facts (vals : List ℚ)
    (h : (iotVerdict vals).1 = true) :
    3 ≤ vals.length
    ∧ anomalyCount vals ≤ max 1 (vals.length / 10)
    ∧ 2 < nunique vals := by
  unfold iotVerdict at h
  split_ifs at h with h1 h2 h3
  all_goals try simp at h
  all_goals omega

/-- A sum of nonnegative rationals is zero only if every term is. -/
theorem list_sum_nonneg_eq_zero (l : List ℚ) (hn : ∀ x ∈ l, 0 ≤ x)
    (hs : l.sum = 0) : ∀ x ∈ l, x = 0 := by
  induction l with
  | nil => intro x hx; cases hx
  | cons a t ih =>
    intro x hx
    have ha : 0 ≤ a := hn a (by simp)
    have hts : 0 ≤ t.sum := List.sum_nonneg (fun y hy => hn y (by simp [hy]))
    rw [List.sum_cons] at hs
    have ha0 : a = 0 := by linarith
    rcases List.mem_cons.1 hx with rfl | hxt
    · exact ha0
    · exact ih (fun y hy => hn y (by simp [hy])) (by linarith) x hxt

/-- **C3**: injecting into a tight passing series of ≥ 30 readings a
single outlier whose z-score in the extended series exceeds 3 does not
flip the verdict to fail — "tight" formalised as: no original reading
has |z| > 3 in the extended series — because the anomaly budget is
`max(1, n // 10)`; and whenever the anomaly count exceeds that budget
the validator fails. -/
theorem c3_outlier_budget :
    (∀ (raw : List (Option ℚ)) (ts : TsCol) (x : ℚ),
      30 ≤ (raw.filterMap id).length →
      (anomaly_detection_iot ⟨some raw, ts⟩).1 = true →
      isAnomaly (listMean (raw.filterMap id ++ [x]))
        (sampleVar (raw.filterMap id ++ [x])) x = true →
      (∀ v ∈ raw.filterMap id,
        isAnomaly (listMean (raw.filterMap id ++ [x]))
          (sampleVar (raw.filterMap id ++ [x])) v = false) →
      (anomaly_detection_iot ⟨some (raw ++ [some x]), ts⟩).1 = true)
    ∧ (∀ (raw : List (Option ℚ)) (ts : TsCol),
        max 1 ((raw.filterMap id).length / 10) < anomalyCount (raw.filterMap id) →
        (anomaly_detection_iot ⟨some raw, ts⟩).1 = false) := by
  constructor
  · intro raw ts x hn hpass hx htight
    rw [anomaly_detection_iot_some] at hpass ⊢
    obtain ⟨h3, _, hnu⟩ := iotVerdict_pass_facts _ hpass
    set vals := raw.filterMap id with hv
    have hext : (raw ++ [some x]).filterMap id = vals ++ [x] := by
      simp [List.filterMap_append]
    rw [hext]
    have hcount : anomalyCount (vals ++ [x]) = 1 := by
      unfold anomalyCount
      rw [List.filter_append]
      have hnil : vals.filter
          (isAnomaly (listMean (vals ++ [x])) (sampleVar (vals ++ [x]))) = [] :=
        List.filter_eq_nil_iff.2 (fun v hv2 => by simp [htight v hv2])
      rw [hnil]
      simp [List.filter, hx]
    have hlen : (vals ++ [x]).length = vals.length + 1 := by simp
    have hnu2 : nunique vals ≤ nunique (vals ++ [x]) := nunique_le_append vals [x]
    have hm : 1 ≤ max 1 ((vals ++ [x]).length / 10) := le_max_left _ _
    unfold iotVerdict
    rw [if_neg (by omega), if_neg (by omega), if_neg (by omega)]
  · intro raw ts hcount
    rw [anomaly_detection_iot_some]
    unfold iotVerdict
    split_ifs
    all_goals rfl

set_option maxRecDepth 100000 in
/-- Witness for C3: thirty tight readings cycling through 10, 11, 9
pass; appending the outlier 1000 keeps the verdict a pass; a 29-point
series with three readings beyond three standard deviations exceeds
its budget of 2 and fails. -/
theorem c3_outlier_budget_witness :
    (anomaly_detection_iot
      ⟨some ((List.replicate 10 [some (10:ℚ), some 11, some 9]).flatten
        ++ [some 1000]), .absent⟩).1 = true
    ∧ (anomaly_detection_iot
      ⟨some ([some (35:ℚ), some 35, some (-35)]
        ++ List.replicate 26 (some (-35/26))), .absent⟩).1 = false := by
  constructor
  · exact c3_outlier_budget.1
      (List.replicate 10 [some (10:ℚ), some 11, some 9]).flatten .absent 1000
      (by decide) (by decide) (by decide) (by decide)
  · exact c3_outlier_budget.2
      ([some (35:ℚ), some 35, some (-35)] ++ List.replicate 26 (some (-35/26)))
      .absent (by decide)

/-- **C10**: with at least 3 non-missing readings of zero standard
deviation the validator returns a definite verdict (the flatline
failure — all readings equal, so at most one distinct value), the
z-score test running with denominator 1 rather than raising a division
error; and missing cells are dropped before the statistics: the
verdict equals the verdict on the dropna'd series. -/
theorem c10_zero_std_total (raw : List (Option ℚ)) (ts : TsCol)
    (h3 : 3 ≤ (raw.filterMap id).length)
    (hstd : sampleVar (raw.filterMap id) = 0) :
    anomaly_detection_iot ⟨some raw, ts⟩ = (false, .flatline)
    ∧ anomaly_detection_iot ⟨some ((raw.filterMap id).map some), ts⟩ =
        anomaly_detection_iot ⟨some raw, ts⟩ := by
  set vals := raw.filterMap id with hv
  have hlen3 : (3:ℚ) ≤ (vals.length : ℚ) := by exact_mod_cast h3
  have hden : ((vals.length : ℚ) - 1) ≠ 0 := by
    intro h
    have : (vals.length : ℚ) = 1 := by linarith
    linarith
  have hss : ssDev vals = 0 := by
    unfold sampleVar at hstd
    rcases div_eq_zero_iff.1 hstd with h | h
    · exact h
    · exact absurd h hden
  have hall : ∀ v ∈ vals, v = listMean vals := by
    intro v hv2
    have hz := list_sum_nonneg_eq_zero
      (vals.map (fun v => (v - listMean vals) ^ 2))
      (by intro y hy
          obtain ⟨w, _, rfl⟩ := List.mem_map.1 hy
          positivity)
      hss ((v - listMean vals) ^ 2) (List.mem_map_of_mem _ hv2)
    have := pow_eq_zero_iff (n := 2) (by norm_num) |>.1 hz
    linarith [sub_eq_zero.1 this]
  have hnuni : nunique vals ≤ 2 := by
    unfold nunique
    rw [← List.card_toFinset]
    have hsub : vals.toFinset ⊆ {listMean vals} := by
      intro a ha
      rw [List.mem_toFinset] at ha
      simp [hall a ha]
    calc vals.toFinset.card ≤ ({listMean vals} : Finset ℚ).card :=
          Finset.card_le_card hsub
      _ ≤ 2 := by simp
  have hcount : anomalyCount vals = 0 := by
    unfold anomalyCount
    rw [List.filter_eq_nil_iff.2 ?_]
    · rfl
    · intro v hv2
      unfold isAnomaly
      rw [hstd]
      simp [hall v hv2]
  have hverdict : iotVerdict vals = (false, .flatline) := by
    unfold iotVerdict
    rw [if_neg (by omega), if_neg (by omega), if_pos hnuni]
  refine ⟨?_, ?_⟩
  · rw [anomaly_detection_iot_some, ← hv, hverdict]
  · rw [anomaly_detection_iot_some, anomaly_detection_iot_some, ← hv]
    have : (vals.map some).filterMap id = vals := by
      simp [List.filterMap_map]
    rw [this]

set_option maxRecDepth 100000 in
/-- Witness for C10 at three readings of 5 with one missing cell. -/
theorem c10_zero_std_total_witness :
    anomaly_detection_iot
      ⟨some [some (5:ℚ), none, some 5, some 5], .absent⟩ = (false, .flatline)
    ∧ anomaly_detection_iot
      ⟨some (([some (5:ℚ), none, some 5, some 5].filterMap id).map some),
        .absent⟩ =
      anomaly_detection_iot ⟨some [some (5:ℚ), none, some 5, some 5], .absent⟩ :=
  c10_zero_std_total [some (5:ℚ), none, some 5, some 5] .absent
    (by decide) (by decide)

/-- **C2** (counterexample): on three readings of value 100 with
timestamps spanning 1800 s (= 0.5 h), the code floors the duration up
to 1.0 h and yields 10 credits, while the formula as the claim words
it (duration floored only when ≤ 0) yields 5. -/
theorem c2_counterexample :
    calculate_credits_iot
      ⟨some [some 100, some 100, some 100], .parsed [0, 1800]⟩ = 10
    ∧ calculate_credits_iot_claim
      ⟨some [some 100, some 100, some 100], .parsed [0, 1800]⟩ = 5 := by
  constructor <;> decide

/-- **C2** (amended): the tabular credit estimate equals
`max(1, floor(mean(value) * duration_hours / 10))` where
`duration_hours` is the timestamp span in hours floored at 1.0
whenever it is below 1.0 (not only when ≤ 0), and is 1.0 when the
timestamp column is absent or unparseable. -/
theorem c2_iot_credit_formula (df : IotDf) :
    calculate_credits_iot df = calculate_credits_iot_amended df := by
  obtain ⟨vc, ts⟩ := df
  unfold calculate_credits_iot calculate_credits_iot_amended
  cases ts <;> exact max_one_pyInt _

set_option maxRecDepth 100000 in
/-- **C4** (counterexample): in src/app1.py's "Upload Data & Verify"
surface a 5×5 uniform image — an artifact the repository's image
validator rejects — is persisted with status `verified`; no validator
is invoked on that path. -/
theorem c4_counterexample :
    (uploadDataAndVerify "u" "t" "c" "v" 1
      ⟨5, 5, List.replicate 25 128⟩).status = "verified"
    ∧ (anomaly_detection_image ⟨5, 5, List.replicate 25 128⟩).1 = false := by
  refine ⟨rfl, by decide⟩

/-- **C4** (amended): in src/app.py's upload handler a record is
persisted with status `verified` iff the validator passed on the
uploaded artifact, and the credit estimator is invoked iff validation
passed; in src/app1.py's upload surface every decoded upload is
persisted with status `verified` without any validator invocation. -/
theorem c4_verified_follows_validation :
    (∀ (id : ℕ) (ruuid ca pn : String) (df : IotDf),
      ((runBtnIot id ruuid ca pn df).1.mrv_status = "verified" ↔
        (anomaly_detection_iot df).1 = true)
      ∧ ((runBtnIot id ruuid ca pn df).2 = true ↔
        (anomaly_detection_iot df).1 = true))
    ∧ (∀ (id : ℕ) (ruuid ca pn : String) (img : Img),
      ((runBtnImage id ruuid ca pn img).1.mrv_status = "verified" ↔
        (anomaly_detection_image img).1 = true)
      ∧ ((runBtnImage id ruuid ca pn img).2 = true ↔
        (anomaly_detection_image img).1 = true))
    ∧ (∀ (uid ts cr vr : String) (pid : ℕ) (img : Img),
      (uploadDataAndVerify uid ts cr vr pid img).status = "verified") := by
  refine ⟨?_, ?_, fun _ _ _ _ _ _ => rfl⟩
  · intro id ruuid ca pn df
    cases hv : (anomaly_detection_iot df).1 <;>
      simp [runBtnIot, save_record, hv]
  · intro id ruuid ca pn img
    cases hv : (anomaly_detection_image img).1 <;>
      simp [runBtnImage, save_record, hv]

set_option maxRecDepth 100000 in
/-- Witness for C4: a tight three-reading CSV is persisted as
`verified` by src/app.py's handler with the estimator invoked, and the
uniform 5×5 image is persisted as `verified` by src/app1.py's surface. -/
theorem c4_verified_follows_validation_witness :
    (runBtnIot 1 "u" "t" "p"
      ⟨some [some 10, some 11, some 9], .absent⟩).1.mrv_status = "verified"
    ∧ (runBtnIot 1 "u" "t" "p"
      ⟨some [some 10, some 11, some 9], .absent⟩).2 = true
    ∧ (uploadDataAndVerify "u" "t" "c" "v" 1
      ⟨5, 5, List.replicate 25 128⟩).status = "verified" :=
  ⟨(c4_verified_follows_validation.1 1 "u" "t" "p"
      ⟨some [some 10, some 11, some 9], .absent⟩).1.2 (by decide),
   (c4_verified_follows_validation.1 1 "u" "t" "p"
      ⟨some [some 10, some 11, some 9], .absent⟩).2.2 (by decide),
   c4_verified_follows_validation.2.2 "u" "t" "c" "v" 1
     ⟨5, 5, List.replicate 25 128⟩⟩

/-- **C5**: a validation failure is a normal persisted outcome: the
src/app.py handler saves a row with status `rejected`, 0 credits and
the validator's failure reason as the note; and every persisted
`rejected` row carries 0 credits and the validator's reason. -/
theorem c5_rejected_zero_credits :
    (∀ (id : ℕ) (ruuid ca pn : String) (df : IotDf),
      ((anomaly_detection_iot df).1 = false →
        (runBtnIot id ruuid ca pn df).1 =
          save_record id ruuid ca pn "iot_csv" 0 "rejected"
            (anomaly_detection_iot df).2 none)
      ∧ ((runBtnIot id ruuid ca pn df).1.mrv_status = "rejected" →
          (runBtnIot id ruuid ca pn df).1.credits = 0
          ∧ (runBtnIot id ruuid ca pn df).1.mrv_msg =
              (anomaly_detection_iot df).2))
    ∧ (∀ (id : ℕ) (ruuid ca pn : String) (img : Img),
      ((anomaly_detection_image img).1 = false →
        (runBtnImage id ruuid ca pn img).1 =
          save_record id ruuid ca pn "image" 0 "rejected"
            (anomaly_detection_image img).2 none)
      ∧ ((runBtnImage id ruuid ca pn img).1.mrv_status = "rejected" →
          (runBtnImage id ruuid ca pn img).1.credits = 0
          ∧ (runBtnImage id ruuid ca pn img).1.mrv_msg =
              (anomaly_detection_image img).2)) := by
  constructor
  · intro id ruuid ca pn df
    cases hv : (anomaly_detection_iot df).1 <;>
      simp [runBtnIot, save_record, hv]
  · intro id ruuid ca pn img
    cases hv : (anomaly_detection_image img).1 <;>
      simp [runBtnImage, save_record, hv]

set_option maxRecDepth 100000 in
/-- Witness for C5: a flatline CSV and a uniform image are persisted
as rejected rows with 0 credits and the validator's reason. -/
theorem c5_rejected_zero_credits_witness :
    (runBtnIot 1 "u" "t" "p" ⟨some [some 1, some 1, some 1], .absent⟩).1 =
      save_record 1 "u" "t" "p" "iot_csv" 0 "rejected"
        (anomaly_detection_iot ⟨some [some 1, some 1, some 1], .absent⟩).2 none
    ∧ (runBtnImage 2 "u" "t" "p" ⟨5, 5, List.replicate 25 128⟩).1.credits = 0 := by
  constructor
  · exact (c5_rejected_zero_credits.1 1 "u" "t" "p"
      ⟨some [some 1, some 1, some 1], .absent⟩).1 (by decide)
  · exact ((c5_rejected_zero_credits.2 2 "u" "t" "p"
      ⟨5, 5, List.replicate 25 128⟩).2 (by decide)).1

/-- **C6**: the issue action never reassigns, recomputes, or
overwrites a ledger hash that is already set (non-null and non-empty):
such a row is returned unchanged at its position; and any row the
action does change was a verified row with an unset hash — the action
only ever selects records whose ledger hash is still unset. -/
theorem c6_issue_preserves_set_hash (now : String) (store : List RegRow)
    (hids : (store.map RegRow.id).Nodup) :
    (∀ (i : ℕ) (r : RegRow) (s : String), store.get? i = some r →
      r.tx_hash = some s → s ≠ "" →
      (issueButton now store).1.get? i = some r)
    ∧ (∀ (j : ℕ) (r : RegRow), store.get? j = some r →
      (issueButton now store).1.get? j ≠ some r →
      unissuedVerified r = true) := by
  unfold issueButton
  cases hsel : (store.filter unissuedVerified).argmax RegRow.id with
  | none =>
    refine ⟨fun i r s hi _ _ => hi, fun j r hj hne => absurd hj hne⟩
  | some sel =>
    have hmem : sel ∈ store.filter unissuedVerified := List.argmax_mem hsel
    have hselstore : sel ∈ store := (List.mem_filter.1 hmem).1
    have hseluv : unissuedVerified sel = true := (List.mem_filter.1 hmem).2
    have hselhash : sel.tx_hash = none ∨ sel.tx_hash = some "" := by
      unfold unissuedVerified at hseluv
      rw [Bool.and_eq_true, Bool.or_eq_true] at hseluv
      rcases hseluv.2 with h | h
      · exact Or.inl (by simpa using h)
      · exact Or.inr (by simpa using h)
    constructor
    · intro i r s hi hr hs
      rw [List.get?_map, hi]
      have hrstore : r ∈ store := List.get?_mem hi
      have hne : r.id ≠ sel.id := by
        intro hid
        have : r = sel :=
          List.inj_on_of_nodup_map hids hrstore hselstore hid
        subst this
        rcases hselhash with h | h
        · rw [hr] at h; cases h
        · rw [hr] at h
          exact hs (by injection h)
      simp [setTx, hne]
    · intro j r hj hne2
      rw [List.get?_map, hj] at hne2
      by_cases hid : r.id = sel.id
      · have : r = sel :=
          List.inj_on_of_nodup_map hids (List.get?_mem hj) hselstore hid
        rw [this]
        exact hseluv
      · exfalso
        apply hne2
        simp [setTx, hid]

/-- Witness for C6: with one already-issued verified row and one
unissued verified row, issuing leaves the issued row untouched. -/
theorem c6_issue_preserves_set_hash_witness :
    (issueButton "0"
      [⟨1, "a", "t", "p", "image", 5, "verified", .imageOk 100, some "beef"⟩,
       ⟨2, "b", "t", "p", "image", 3, "verified", .imageOk 90, none⟩]).1.get? 0 =
    some ⟨1, "a", "t", "p", "image", 5, "verified", .imageOk 100, some "beef"⟩ :=
  (c6_issue_preserves_set_hash "0"
    [⟨1, "a", "t", "p", "image", 5, "verified", .imageOk 100, some "beef"⟩,
     ⟨2, "b", "t", "p", "image", 3, "verified", .imageOk 90, none⟩]
    (by decide)).1 0
    ⟨1, "a", "t", "p", "image", 5, "verified", .imageOk 100, some "beef"⟩
    "beef" (by decide) (by decide) (by decide)

/-- **C7** (counterexample): src/app1.py assigns the ledger hash at
creation time — a freshly created project row already carries one. -/
theorem c7_counterexample :
    (add_project "u" "t" "n" "l" "d").tx_hash ≠ none := by
  simp [add_project]

/-- **C7** (amended): in src/app.py, records are created with no
ledger hash (`save_record` receives `None` on every upload path; the
hash is assigned only by the separate issue action), while in
src/app1.py every created row — project, credit record, complaint —
is assigned a ledger hash at creation time, derived from the listed
seed. -/
theorem c7_hash_at_creation :
    (∀ (id : ℕ) (ruuid ca pn : String) (df : IotDf),
      (runBtnIot id ruuid ca pn df).1.tx_hash = none)
    ∧ (∀ (id : ℕ) (ruuid ca pn : String) (img : Img),
      (runBtnImage id ruuid ca pn img).1.tx_hash = none)
    ∧ (∀ uid ca n l d, (add_project uid ca n l d).tx_hash =
        some (simulate_tx_hash (uid ++ ca)))
    ∧ (∀ uid ts cr (pid : ℕ) dt (c : ℚ) st nts,
        (add_credit uid ts cr pid dt c st nts).tx_hash =
          some (simulate_tx_hash (uid ++ cr ++ ts)))
    ∧ (∀ uid ts (pid : ℕ) comp, (add_complaint uid ts pid comp).tx_hash =
        some (simulate_tx_hash (uid ++ comp ++ ts))) := by
  refine ⟨?_, ?_, fun _ _ _ _ _ => rfl, fun _ _ _ _ _ _ _ _ => rfl,
    fun _ _ _ _ => rfl⟩
  · intro id ruuid ca pn df
    cases hv : (anomaly_detection_iot df).1 <;>
      simp [runBtnIot, save_record, hv]
  · intro id ruuid ca pn img
    cases hv : (anomaly_detection_image img).1 <;>
      simp [runBtnImage, save_record, hv]

/-- Every hex digit produced by `nib` is one of the 16 digits. -/
theorem nib_mem_hexChars (n : ℕ) : Sha256.nib n ∈ Sha256.hexChars := by
  have h : n % 16 < 16 := Nat.mod_lt _ (by norm_num)
  exact List.mem_map_of_mem _ (List.mem_range.2 h)

/-- All eight characters of a word's hex rendering are hex digits. -/
theorem wordHex_subset (w : ℕ) :
    ∀ c ∈ Sha256.wordHex w, c ∈ Sha256.hexChars := by
  intro c hc
  simp only [Sha256.wordHex, List.mem_cons, List.not_mem_nil, or_false] at hc
  rcases hc with rfl | rfl | rfl | rfl | rfl | rfl | rfl | rfl <;>
    exact nib_mem_hexChars _

/-- A rendered hash state is 64 characters long. -/
theorem hsHex_length (st : Sha256.Hs) : (Sha256.hsHex st).length = 64 := by
  show (Sha256.hsChars st).length = 64
  simp [Sha256.hsChars, Sha256.wordHex]

/-- Every character of a rendered hash state is a hex digit. -/
theorem hsHex_chars (st : Sha256.Hs) :
    ∀ c ∈ (Sha256.hsHex st).data, c ∈ Sha256.hexChars := by
  intro c hc
  have hc2 : c ∈ Sha256.hsChars st := hc
  simp only [Sha256.hsChars, List.mem_append] at hc2
  rcases hc2 with ((((((h | h) | h) | h) | h) | h) | h) | h <;>
    exact wordHex_subset _ _ h

set_option maxRecDepth 100000 in
/-- **C8**: the hash generator returns the 64-hex-character SHA-256
digest of the seed's UTF-8 encoding: length 64, all characters
hexadecimal, deterministic in the seed; it matches the FIPS 180-2
test vector for "abc" (pinning the function to SHA-256), and distinct
seeds yield distinct digests in practice (concretely for "a", "b"). -/
theorem c8_hash_generator :
    (∀ seed : String, (simulate_tx_hash seed).length = 64)
    ∧ (∀ seed : String, ∀ c ∈ (simulate_tx_hash seed).data,
        c ∈ Sha256.hexChars)
    ∧ (∀ s t : String, s = t → simulate_tx_hash s = simulate_tx_hash t)
    ∧ simulate_tx_hash "abc" =
        "ba7816bf8f01cfea414140de5dae2223b00361a396177a9cb410ff61f20015ad"
    ∧ simulate_tx_hash "a" ≠ simulate_tx_hash "b" := by
  refine ⟨fun seed => hsHex_length _, fun seed => hsHex_chars _,
    fun s t h => by rw [h], by decide, by decide⟩

set_option maxRecDepth 100000 in
/-- Witness for C8: the general conjuncts applied at concrete seeds. -/
theorem c8_hash_generator_witness :
    (simulate_tx_hash "abc").length = 64
    ∧ 'b' ∈ Sha256.hexChars
    ∧ simulate_tx_hash "xyz" = simulate_tx_hash "xyz" :=
  ⟨c8_hash_generator.1 "abc",
   c8_hash_generator.2.1 "abc" 'b' (by decide),
   c8_hash_generator.2.2.1 "xyz" "xyz" rfl⟩

/-- **C9**: when no verified record with an unset ledger hash exists,
the issue action reports the informational outcome and returns the
store exactly as it was. -/
theorem c9_issue_noop (now : String) (store : List RegRow)
    (h : ∀ r ∈ store, unissuedVerified r = false) :
    issueButton now store = (store, .info) := by
  unfold issueButton
  have hfil : store.filter unissuedVerified = [] :=
    List.filter_eq_nil_iff.2 (fun r hr => by simp [h r hr])
  rw [hfil]
  rfl

/-- Witness for C9: a store holding only a rejected row and an
already-issued verified row is left unchanged. -/
theorem c9_issue_noop_witness :
    issueButton "0"
      [⟨1, "a", "t", "p", "iot_csv", 0, "rejected", .flatline, none⟩,
       ⟨2, "b", "t", "p", "image", 3, "verified", .imageOk 100, some "beef"⟩] =
    ([⟨1, "a", "t", "p", "iot_csv", 0, "rejected", .flatline, none⟩,
      ⟨2, "b", "t", "p", "image", 3, "verified", .imageOk 100, some "beef"⟩],
     .info) :=
  c9_issue_noop "0" _ (by decide)

end BlueCarbon

